import Mathlib

/-!
Shallow embedding of `nameko/events.py` (event dispatch and handler
registration) and, where the repository ships only the tests
(`test/test_call_id_stack.py`), a spec-modelled `WorkerContext`
(call-id stack construction from `nameko/containers.py`).

Python sentinel identity (`handler_type is BROADCAST`) is modelled by an
inductive type whose three sentinel constructors stand for the module-level
constant objects; `other s` stands for any non-sentinel object, even one
whose string value equals a sentinel's ("broadcast" is equal to but not
identical with the constant BROADCAST).
-/

namespace Nameko

/-- The three handler-type sentinel constants of `nameko.events`, plus
`other`: any object that is not one of the three module-level constants
(Python `is` compares object identity, so a distinct but equal string is
`other`). -/
inductive HandlerType where
  | SERVICE_POOL
  | SINGLETON
  | BROADCAST
  | other (value : String)
deriving DecidableEq

/-- Python `handler_type is BROADCAST` (identity comparison with the
module constant). -/
def HandlerType.isBROADCAST : HandlerType → Bool
  | .BROADCAST => true
  | _ => false

/-- Delivery mode constants from `nameko.messaging` (external collaborator;
kombu's PERSISTENT / TRANSIENT). -/
inductive DeliveryMode where
  | PERSISTENT
  | TRANSIENT
deriving DecidableEq

/-- A kombu `Exchange` descriptor as used by `events.py` (only the fields
the module sets). -/
structure Exchange where
  name : String
  type : String
  durable : Bool
  auto_delete : Bool
  delivery_mode : DeliveryMode
deriving DecidableEq

/-- `get_event_exchange(service_name)`: builds the exchange descriptor
`"{service_name}.events"`, type `topic`, durable, auto-delete, persistent
delivery mode (events.py lines 43-51). -/
def get_event_exchange (service_name : String) : Exchange :=
  { name := s!"{service_name}.events"
    type := "topic"
    durable := true
    auto_delete := true
    delivery_mode := .PERSISTENT }

/-- The exceptions `events.py` raises, plus `UnboundLocalError`: the Python
error raised when `EventHandler.start` reads `queue_name` without any
branch having assigned it. -/
inductive EventsError where
  | EventTypeMissing (name : String)
  | EventTypeTooLong (event_type : String)
  | EventHandlerConfigurationError (msg : String)
  | UnboundLocalError
deriving DecidableEq

/-- `EventMeta.__new__` (events.py lines 85-94): `dct_type` is the class
body's own `type` entry (`dct['type']`, `none` when the subclass does not
itself declare one).  Missing raises `EventTypeMissing`; a declared type of
more than 255 bytes raises `EventTypeTooLong`; otherwise the class is
created (we return the validated type). -/
def EventMeta.new (name : String) (dct_type : Option String) :
    Except EventsError String :=
  match dct_type with
  | none => .error (.EventTypeMissing name)
  | some event_type =>
    if event_type.utf8ByteSize > 255 then
      .error (.EventTypeTooLong event_type)
    else
      .ok event_type

/-- An `Event` instance: a `type` tag and an opaque `data` payload
(events.py lines 97-112). -/
structure Event (α : Type) where
  type : String
  data : α

/-- The `EventHandler` provider's constructor state (events.py lines
215-223). -/
structure EventHandler where
  service_name : String
  event_type : String
  handler_type : HandlerType
  reliable_delivery : Bool
  requeue_on_error : Bool
deriving DecidableEq

/-- The `event_handler` registration decorator (events.py lines 206-212):
raises `EventHandlerConfigurationError` when `reliable_delivery` is set and
`handler_type is BROADCAST`; otherwise returns the `EventHandler`. -/
def event_handler (service_name event_type : String)
    (handler_type : HandlerType) (reliable_delivery requeue_on_error : Bool) :
    Except EventsError EventHandler :=
  if reliable_delivery && handler_type.isBROADCAST then
    .error (.EventHandlerConfigurationError
      "Broadcast event handlers cannot be configured with reliable delivery.")
  else
    .ok { service_name, event_type, handler_type, reliable_delivery,
          requeue_on_error }

/-- A kombu `Queue` descriptor as built by `EventHandler.start` (only the
fields the module sets). -/
structure Queue where
  name : String
  exchange : Exchange
  routing_key : String
  durable : Bool
  auto_delete : Bool
deriving DecidableEq

/-- The `queue_name` local of `EventHandler.start` (events.py lines
237-247): the if/elif chain assigns it only when `handler_type` is
identical to one of the three sentinels.  `dest_name` is `srv_ctx['name']`
(the starting container's service name); `u` is the value produced by
`uuid.uuid4()`, passed in to keep the embedding pure. -/
def EventHandler.queue_name (h : EventHandler) (dest_name u : String) :
    Option String :=
  match h.handler_type with
  | .SERVICE_POOL => some s!"evt-{h.service_name}-{h.event_type}-{dest_name}"
  | .SINGLETON => some s!"evt-{h.service_name}-{h.event_type}"
  | .BROADCAST => some s!"evt-{h.service_name}-{h.event_type}-{u}"
  | .other _ => none

/-- `EventHandler.start` (events.py lines 225-257): derives the queue name
from the handler type, then declares a durable queue bound to the source
service's event exchange with routing key `event_type` and
`auto_delete = not reliable_delivery`.  When no branch assigned
`queue_name`, reading it raises `UnboundLocalError`. -/
def EventHandler.start (h : EventHandler) (dest_name u : String) :
    Except EventsError Queue :=
  match h.queue_name dest_name u with
  | none => .error .UnboundLocalError
  | some qn =>
    .ok { name := qn
          exchange := get_event_exchange h.service_name
          routing_key := h.event_type
          durable := true
          auto_delete := !h.reliable_delivery }

/-- The `EventDispatcher` provider after `start`: `start` stores the
service's own event exchange on the instance (events.py lines 149-151). -/
structure EventDispatcher where
  exchange : Exchange
deriving DecidableEq

/-- `EventDispatcher.start(srv_ctx)` (events.py lines 149-151): resolves
`get_event_exchange(srv_ctx['name'])` once and binds it to the instance. -/
def EventDispatcher.start (srv_ctx_name : String) : EventDispatcher :=
  { exchange := get_event_exchange srv_ctx_name }

/-- A message as handed to the `Publisher` base class: the exchange it is
published to, the payload, and the routing key. -/
structure PublishedMessage (α : Type) where
  exchange : Exchange
  payload : α
  routing_key : String

/-- `EventDispatcher.__call__(evt)` (events.py lines 153-156): publishes
`evt.data` with routing key `evt.type` to the exchange stored at start. -/
def EventDispatcher.call {α : Type} (d : EventDispatcher) (evt : Event α) :
    PublishedMessage α :=
  { exchange := d.exchange, payload := evt.data, routing_key := evt.type }

/-- Modelled from the spec: `nameko.containers.WorkerContext` is not under
src (only `test/test_call_id_stack.py` is).  Per spec section 4.5, the
call id is formatted `"{service_name}.{entrypoint_name}.{sequence_number}"`
from a process-wide monotonic counter. -/
def make_call_id (service_name entrypoint_name : String) (seq : Nat) :
    String :=
  s!"{service_name}.{entrypoint_name}.{seq}"

/-- The fields of a constructed `WorkerContext` that the claims are about. -/
structure WorkerContext where
  call_id : String
  call_id_stack : List String
  immediate_parent_call_id : Option String
deriving DecidableEq

/-- Modelled from the spec: `nameko.containers.WorkerContext.__init__` is
not under src.  Per spec section 4.5: read the inherited stack from
`data['call_id_stack']` (empty when absent); read the configured maximum
depth `cap` (`PARENT_CALLS_CONFIG_KEY`, unlimited when unset); if `cap` is
set and the inherited stack is longer, keep only its last `cap` elements;
append the context's own call id.  `immediate_parent_call_id` is the last
element of the inherited stack as passed in, absent when the inherited
stack was absent or empty. -/
def WorkerContext.make (cap : Option Nat)
    (data_call_id_stack : Option (List String)) (own_call_id : String) :
    WorkerContext :=
  let inherited := data_call_id_stack.getD []
  let kept :=
    match cap with
    | none => inherited
    | some c =>
      if inherited.length > c then inherited.drop (inherited.length - c)
      else inherited
  { call_id := own_call_id
    call_id_stack := kept ++ [own_call_id]
    immediate_parent_call_id := inherited.getLast? }

/-! Claim theorems. -/

/-- Claim C1: a call to `event_handler` raises
`EventHandlerConfigurationError` if and only if `handler_type` is the
BROADCAST sentinel and `reliable_delivery` is true; every other
combination succeeds and returns the handler registration. -/
theorem event_handler_rejects_broadcast_reliable_iff
    (sn et : String) (ht : HandlerType) (rd rq : Bool) :
    ((∃ msg, event_handler sn et ht rd rq =
        .error (.EventHandlerConfigurationError msg)) ↔
      ht = .BROADCAST ∧ rd = true) ∧
    (¬(ht = .BROADCAST ∧ rd = true) →
      event_handler sn et ht rd rq =
        .ok { service_name := sn, event_type := et, handler_type := ht,
              reliable_delivery := rd, requeue_on_error := rq }) := by
  cases ht <;> cases rd <;>
    simp [event_handler, HandlerType.isBROADCAST]

/-- Witness for C1 at concrete inputs: BROADCAST with reliable delivery
errors; SINGLETON with reliable delivery succeeds. -/
theorem event_handler_rejects_broadcast_reliable_iff_witness :
    (∃ msg, event_handler "src" "evt" .BROADCAST true false =
        .error (.EventHandlerConfigurationError msg)) ∧
    event_handler "src" "evt" .SINGLETON true false =
      .ok { service_name := "src", event_type := "evt",
            handler_type := .SINGLETON, reliable_delivery := true,
            requeue_on_error := false } :=
  ⟨(event_handler_rejects_broadcast_reliable_iff
      "src" "evt" .BROADCAST true false).1.mpr ⟨rfl, rfl⟩,
   (event_handler_rejects_broadcast_reliable_iff
      "src" "evt" .SINGLETON true false).2 (by decide)⟩

/-- Claim C2: the queue name derived by `EventHandler.start` is
`evt-{service_name}-{event_type}-{dest}` for SERVICE_POOL,
`evt-{service_name}-{event_type}` for SINGLETON, and
`evt-{service_name}-{event_type}-{u}` with the fresh instance UUID `u` for
BROADCAST. -/
theorem start_queue_name_by_topology
    (sn et dest u : String) (rd rq : Bool) :
    ((EventHandler.mk sn et .SERVICE_POOL rd rq).start dest u).map Queue.name
        = .ok ("evt-" ++ sn ++ "-" ++ et ++ "-" ++ dest) ∧
    ((EventHandler.mk sn et .SINGLETON rd rq).start dest u).map Queue.name
        = .ok ("evt-" ++ sn ++ "-" ++ et) ∧
    ((EventHandler.mk sn et .BROADCAST rd rq).start dest u).map Queue.name
        = .ok ("evt-" ++ sn ++ "-" ++ et ++ "-" ++ u) := by
  refine ⟨?_, ?_, ?_⟩ <;>
    simp [EventHandler.start, EventHandler.queue_name, Except.map, toString,
          String.append_empty]

/-- Claim C4: defining an Event kind fails with `EventTypeMissing` when the
kind does not itself declare a `type`, fails with `EventTypeTooLong` when
the declared `type` is longer than 255 bytes, and succeeds when it is at
most 255 bytes; the check runs at kind-definition time
(`EventMeta.__new__`). -/
theorem event_meta_type_validation (name : String) :
    EventMeta.new name none = .error (.EventTypeMissing name) ∧
    (∀ t : String, t.utf8ByteSize > 255 →
      EventMeta.new name (some t) = .error (.EventTypeTooLong t)) ∧
    (∀ t : String, t.utf8ByteSize ≤ 255 →
      EventMeta.new name (some t) = .ok t) := by
  refine ⟨rfl, fun t ht => ?_, fun t ht => ?_⟩
  · simp only [EventMeta.new]
    rw [if_pos ht]
  · simp only [EventMeta.new]
    rw [if_neg (by omega)]

set_option maxRecDepth 4000 in
/-- Witness for C4 at concrete inputs: a 256-byte type is rejected, a
255-byte type is accepted. -/
theorem event_meta_type_validation_witness :
    (String.mk (List.replicate 256 'a')).utf8ByteSize > 255 ∧
    EventMeta.new "E" (some (String.mk (List.replicate 256 'a')))
      = .error (.EventTypeTooLong (String.mk (List.replicate 256 'a'))) ∧
    (String.mk (List.replicate 255 'a')).utf8ByteSize ≤ 255 ∧
    EventMeta.new "E" (some (String.mk (List.replicate 255 'a')))
      = .ok (String.mk (List.replicate 255 'a')) :=
  ⟨by decide,
   (event_meta_type_validation "E").2.1 _ (by decide),
   by decide,
   (event_meta_type_validation "E").2.2 _ (by decide)⟩

/-- Claim C6: `get_event_exchange` is a pure deterministic function
returning the exchange named `{service_name}.events`, type topic, durable,
auto-delete, persistent delivery mode; two calls with the same input are
equal. -/
theorem get_event_exchange_descriptor (sn : String) :
    get_event_exchange sn =
      { name := sn ++ ".events", type := "topic", durable := true,
        auto_delete := true, delivery_mode := .PERSISTENT } ∧
    get_event_exchange sn = get_event_exchange sn := by
  refine ⟨?_, rfl⟩
  simp [get_event_exchange, toString, String.append_empty]

/-- Left-cancellation for string append. -/
theorem string_append_left_cancel (a u v : String) (h : a ++ u = a ++ v) :
    u = v := by
  have hd : (a ++ u).data = (a ++ v).data := congrArg String.data h
  rw [String.data_append, String.data_append] at hd
  exact String.ext (List.append_cancel_left hd)

/-- Claim C5: every queue declared by `EventHandler.start` is bound to the
source service's event exchange (`get_event_exchange service_name`), has
routing key equal to the event type, is durable regardless of
configuration, and has `auto_delete = not reliable_delivery`. -/
theorem start_queue_binding_attrs
    (sn et dest u : String) (ht : HandlerType) (rd rq : Bool) (q : Queue)
    (h : (EventHandler.mk sn et ht rd rq).start dest u = .ok q) :
    q.exchange = get_event_exchange sn ∧ q.routing_key = et ∧
    q.durable = true ∧ q.auto_delete = !rd := by
  cases ht <;>
    simp only [EventHandler.start, EventHandler.queue_name,
               Except.ok.injEq, reduceCtorEq] at h <;>
    subst h <;> exact ⟨rfl, rfl, rfl, rfl⟩

/-- Witness for C5 at concrete inputs: a SERVICE_POOL handler without
reliable delivery declares an auto-delete durable queue bound to the
source exchange. -/
theorem start_queue_binding_attrs_witness :
    (Queue.mk "evt-src-evt-dest" (get_event_exchange "src") "evt" true
        true).exchange = get_event_exchange "src" ∧
    (Queue.mk "evt-src-evt-dest" (get_event_exchange "src") "evt" true
        true).routing_key = "evt" ∧
    (Queue.mk "evt-src-evt-dest" (get_event_exchange "src") "evt" true
        true).durable = true ∧
    (Queue.mk "evt-src-evt-dest" (get_event_exchange "src") "evt" true
        true).auto_delete = !false :=
  start_queue_binding_attrs "src" "evt" "dest" "u" .SERVICE_POOL false true
    (Queue.mk "evt-src-evt-dest" (get_event_exchange "src") "evt" true true)
    (by rfl)

/-- Claim C7: a started `EventDispatcher` publishes exactly `evt.data` as
the payload with routing key exactly `evt.type`, to the exchange derived at
start from the starting container's name; dispatch only reads the exchange
stored at start, so the published exchange does not depend on the event. -/
theorem dispatcher_publishes_data_with_type_key
    (α : Type) (n : String) (evt : Event α) :
    (EventDispatcher.start n).call evt =
      { exchange := get_event_exchange n, payload := evt.data,
        routing_key := evt.type } ∧
    (∀ (d : EventDispatcher) (evt2 : Event α),
      (d.call evt).exchange = (d.call evt2).exchange) :=
  ⟨rfl, fun _ _ => rfl⟩

/-- Claim C8: with (service_name, event_type, destination) fixed, repeated
SERVICE_POOL registrations derive equal queue names and so do repeated
SINGLETON registrations, whatever the other flags; two BROADCAST
registration starts, drawing distinct fresh UUIDs, derive distinct queue
names. -/
theorem queue_name_determinism
    (sn et dest u u' : String) (rd rq rd' rq' : Bool) (hne : u ≠ u') :
    (EventHandler.mk sn et .SERVICE_POOL rd rq).queue_name dest u
      = (EventHandler.mk sn et .SERVICE_POOL rd' rq').queue_name dest u' ∧
    (EventHandler.mk sn et .SINGLETON rd rq).queue_name dest u
      = (EventHandler.mk sn et .SINGLETON rd' rq').queue_name dest u' ∧
    (EventHandler.mk sn et .BROADCAST rd rq).queue_name dest u
      ≠ (EventHandler.mk sn et .BROADCAST rd' rq').queue_name dest u' := by
  refine ⟨rfl, rfl, fun h => ?_⟩
  simp only [EventHandler.queue_name, Option.some.injEq] at h
  simp only [toString] at h
  exact hne (string_append_left_cancel _ _ _
    (by simpa [String.append_empty] using h))

/-- Witness for C8 at concrete inputs: distinct UUIDs give distinct
BROADCAST queue names. -/
theorem queue_name_determinism_witness :
    ("u1" : String) ≠ "u2" ∧
    (EventHandler.mk "src" "evt" .BROADCAST false false).queue_name
        "dest" "u1"
      ≠ (EventHandler.mk "src" "evt" .BROADCAST false false).queue_name
        "dest" "u2" :=
  ⟨by decide,
   (queue_name_determinism "src" "evt" "dest" "u1" "u2" false false false
      false (by decide)).2.2⟩

/-- Claim C10: `EventHandler.start` assigns a queue name only when the
handler type is identical to one of the three sentinels; for any
non-sentinel value (even a string equal to but not identical with a
sentinel) `start` raises because `queue_name` is never assigned, while the
registration-time validation in `event_handler` accepts such a value even
with reliable delivery. -/
theorem start_non_sentinel_raises
    (sn et dest u s : String) (rd rq : Bool) :
    (EventHandler.mk sn et (.other s) rd rq).queue_name dest u = none ∧
    (EventHandler.mk sn et (.other s) rd rq).start dest u
      = .error .UnboundLocalError ∧
    event_handler sn et (.other s) rd rq
      = .ok (EventHandler.mk sn et (.other s) rd rq) := by
  refine ⟨rfl, rfl, ?_⟩
  simp [event_handler, HandlerType.isBROADCAST]

/-- Claim C3 (spec-modelled: `nameko.containers.WorkerContext` is not
under src): when a maximum depth `cap` is configured and the inherited
stack is longer than `cap`, the stack kept is exactly the last `cap`
inherited elements followed by the own call id, of total length `cap + 1`;
with no cap configured the inherited stack is never truncated. -/
theorem worker_context_stack_truncation
    (cap : Nat) (inherited : List String) (own : String)
    (h : inherited.length > cap) :
    (WorkerContext.make (some cap) (some inherited) own).call_id_stack
      = (inherited.reverse.take cap).reverse ++ [own] ∧
    (WorkerContext.make (some cap) (some inherited) own).call_id_stack.length
      = cap + 1 ∧
    (∀ (l : List String),
      (WorkerContext.make none (some l) own).call_id_stack = l ++ [own]) := by
  refine ⟨?_, ?_, fun l => rfl⟩
  · simp only [WorkerContext.make, Option.getD]
    rw [if_pos h]
    congr 1
    rw [List.reverse_take]
    simp
  · simp only [WorkerContext.make, Option.getD]
    rw [if_pos h]
    simp
    omega

/-- Witness for C3 at concrete inputs: cap 1 with inherited stack of three
elements keeps only the newest inherited entry plus the own id. -/
theorem worker_context_stack_truncation_witness :
    (["0", "1", "2"] : List String).length > 1 ∧
    (WorkerContext.make (some 1) (some ["0", "1", "2"])
        "baz.long.0").call_id_stack
      = ((["0", "1", "2"] : List String).reverse.take 1).reverse
          ++ ["baz.long.0"] :=
  ⟨by decide,
   (worker_context_stack_truncation 1 ["0", "1", "2"] "baz.long.0"
      (by decide)).1⟩

/-- Claim C9 (spec-modelled: `nameko.containers.WorkerContext` is not
under src): `immediate_parent_call_id` equals the last element of the
inherited stack exactly as passed in `data`, and is `none` when no stack
was passed or the passed stack is empty. -/
theorem immediate_parent_call_id_of_inherited
    (cap : Option Nat) (own : String) :
    (∀ (stack : List String) (x : String),
      (WorkerContext.make cap (some (stack ++ [x]))
          own).immediate_parent_call_id = some x) ∧
    (WorkerContext.make cap none own).immediate_parent_call_id = none ∧
    (WorkerContext.make cap (some []) own).immediate_parent_call_id
      = none := by
  refine ⟨fun stack x => ?_, rfl, rfl⟩
  simp [WorkerContext.make]

end Nameko
